import Mathlib

/-!
Verification of the client-side list-state logic of the sorting_numbers_fe
repository.  The definitions below are shallow embeddings of the TypeScript
functions in `src/ItemList.tsx`, `src/components/ItemList.tsx` and
`src/components/ItemRow.tsx` (the repository holds several near-duplicate
component variants; each definition names the variant it is taken from).
-/

/-- An item of the list: `interface Item { id: number; value: string }`. -/
structure Item where
  id : Int
  value : String
deriving DecidableEq, Repr

/-- Result of a `GET /items` fetch: `{ items: Item[]; total: number }`. -/
structure FetchResult where
  items : List Item
  total : Nat
deriving DecidableEq, Repr

/-- The empty result substituted for failed or stale fetches:
`{ items: [], total: 0 }`. -/
def emptyResult : FetchResult := { items := [], total := 0 }

/-- Page size: `const LIMIT = 20`. -/
def LIMIT : Nat := 20

/-- `handleToggleSelect` / `onSelect` (identical in every variant, e.g.
`src/ItemList.tsx` lines 114-122):
`prev.includes(id) ? prev.filter((i) => i !== id) : [...prev, id]`. -/
def handleToggleSelect (prev : List Int) (id : Int) : List Int :=
  if id ∈ prev then prev.filter (fun i => i ≠ id) else prev ++ [id]

/-- `Array.from(new Set(l))` in JS: keeps the first occurrence of each
element, in insertion order. -/
def jsSetDedup (l : List Int) : List Int :=
  l.foldl (fun acc x => if x ∈ acc then acc else acc ++ [x]) []

/-- `result.splice(idx, 0, x)` on a JS array: inserts `x` at position `idx`,
clamping `idx` to the length (an index past the end appends). -/
def spliceInsert (l : List Int) (idx : Nat) (x : Int) : List Int :=
  l.take idx ++ [x] ++ l.drop idx

/-- `reorder` from `src/components/ItemList.tsx` lines 37-42 (same helper in
`src/components/ItemRow.tsx` lines 118-123):
`const [removed] = result.splice(start, 1); result.splice(end, 0, removed)`.
When `start` is out of bounds the JS code would splice in `undefined`, which
has no `Int` representation; every verified caller guards `start` against the
length first, so that branch returns the list unchanged here. -/
def reorder (list : List Int) (start stop : Nat) : List Int :=
  match list.get? start with
  | some removed => spliceInsert (list.eraseIdx start) stop removed
  | none => list

/-- `onDragEnd` of `src/components/ItemRow.tsx` lines 363-403, restricted to
its effect on the active ordering:
`if (from >= currentIds.length || to >= currentIds.length) return;`
then `reorder(currentIds, from, to)`. -/
def onDragEndIds (currentIds : List Int) (fromIdx toIdx : Nat) : List Int :=
  if currentIds.length ≤ fromIdx ∨ currentIds.length ≤ toIdx then currentIds
  else reorder currentIds fromIdx toIdx

/-- The page-append merge of `loadMore` in `src/ItemList.tsx` lines 335-339:
`const existingIds = new Set(prev.map((item) => item.id));`
`const filteredNewItems = newItems.filter((item) => !existingIds.has(item.id));`
`return [...prev, ...filteredNewItems];`. -/
def mergeAppendItems (prev newItems : List Item) : List Item :=
  prev ++ newItems.filter (fun item => item.id ∉ prev.map Item.id)

/-- Local state of the `src/components/ItemList.tsx` variant (lines 58-86):
loaded items, selection, ordering, pagination offset, last applied search
and scroll position. -/
structure CompState where
  items : List Item
  selectedIds : List Int
  sortedIds : List Int
  offset : Nat
  lastSearch : String
  scrollTop : Nat
deriving DecidableEq, Repr

/-- The debounced-search effect of `src/components/ItemList.tsx` lines
215-241, as a state transition.  The effect only runs in an initialized
session; `fetched` is the response of `loadItems(0, debouncedSearch)`.  It
resets the offset to 0, replaces items and ordering with the fetched result
and resets the scroll position; this variant never advances the local
offset afterwards inside the effect. -/
def searchEffect (s : CompState) (debouncedSearch : String) (fetched : List Item) : CompState :=
  if debouncedSearch = s.lastSearch then s
  else
    { s with
      lastSearch := debouncedSearch
      offset := 0
      items := fetched
      sortedIds := fetched.map Item.id
      scrollTop := 0 }

/-- The response half of the scroll page-append of
`src/components/ItemList.tsx` lines 259-271: an empty result is a no-op
(`if (newItems.length === 0) ... return`), otherwise items are appended,
the offset advances by the number of fetched items and the ordering gains
the new ids with Set-based duplicate suppression. -/
def onScrollApply (s : CompState) (newItems : List Item) : CompState :=
  if newItems.isEmpty then s
  else
    { s with
      items := s.items ++ newItems
      offset := s.offset + newItems.length
      sortedIds := jsSetDedup (s.sortedIds ++ newItems.map Item.id) }

/-- Issuing a list request in `loadItems` of `src/components/ItemList.tsx`
line 125: `const requestId = ++lastRequestId.current` — returns the id the
request was assigned and the new value of the counter. -/
def issueRequest (lastRequestId : Nat) : Nat × Nat :=
  (lastRequestId + 1, lastRequestId + 1)

/-- Applying a response in `loadItems` of `src/components/ItemList.tsx`
line 135: `if (requestId !== lastRequestId.current) return { items: [],
total: 0 }` — the response is passed through only when its generation is
the most recently issued one, otherwise the empty result is returned. -/
def applyResponse (lastRequestId requestId : Nat) (resp : FetchResult) : FetchResult :=
  if requestId = lastRequestId then resp else emptyResult

/-- Local state of the second `src/ItemList.tsx` variant (lines 221-229). -/
structure V2State where
  items : List Item
  selectedIds : List Int
  sortedIds : List Int
  total : Nat
  offset : Nat
  hasMore : Bool
deriving DecidableEq, Repr

/-- `loadMore` of `src/ItemList.tsx` lines 328-343: guarded by `hasMore`
(the in-flight loading guard is a scheduling artifact of the browser and is
not part of this single-step model); on response the new items are merged
with duplicate-id suppression, the offset advances by the fetched count and
`hasMore` becomes `offset + newItems.length < total`. -/
def loadMore (s : V2State) (newItems : List Item) : V2State :=
  if s.hasMore then
    { s with
      items := mergeAppendItems s.items newItems
      offset := s.offset + newItems.length
      hasMore := decide (s.offset + newItems.length < s.total) }
  else s

/-- Persisted UI state of the `src/components/ItemList.tsx` variant
(lines 25-31). -/
structure UserState where
  selectedIds : List Int
  sortedIds : List Int
  scrollTop : Nat
  lastSearch : String
  offset : Nat
deriving DecidableEq, Repr

/-- The defaults substituted by `fetchUserState` of
`src/components/ItemList.tsx` lines 96-105 when `GET /get-state` fails. -/
def defaultUserState : UserState :=
  { selectedIds := [], sortedIds := [], scrollTop := 0, lastSearch := "", offset := 0 }

/-- `fetchUserState` of `src/components/ItemList.tsx` lines 92-106, with the
network outcome made explicit: `none` stands for a failed fetch or a missing
record, and is mapped to the empty defaults by the `catch` branch. -/
def fetchUserState (response : Option UserState) : UserState :=
  match response with
  | some state => state
  | none => defaultUserState

/-- The first request the startup effect issues, per variant
`src/components/ItemList.tsx` lines 164-185. -/
inductive InitQuery where
  | pageQuery (offset : Nat) (search : String) (limit : Nat)
  | bulkQuery (ids : List Int)
deriving DecidableEq, Repr

/-- The branch structure of the startup effect in
`src/components/ItemList.tsx` lines 164-185: a saved search loads that
query, a saved ordering is rehydrated by a bulk fetch, and otherwise the
first unfiltered page is loaded (`state.offset || LIMIT` is the JS
zero-is-falsy limit choice). -/
def initQueryFor (state : UserState) : InitQuery :=
  if state.lastSearch ≠ "" then
    InitQuery.pageQuery 0 state.lastSearch (if state.offset = 0 then LIMIT else state.offset)
  else if state.sortedIds.length ≠ 0 then
    InitQuery.bulkQuery state.sortedIds
  else
    InitQuery.pageQuery 0 "" (if state.offset = 0 then LIMIT else state.offset)

/-- Pagination state of the first `src/ItemList.tsx` variant: the offset and
server total of lines 43-44, plus the log of offsets at which page requests
were issued. -/
structure PagState where
  offset : Nat
  total : Nat
  requests : List Nat
deriving DecidableEq, Repr

/-- One completed near-bottom scroll trigger of the first `src/ItemList.tsx`
variant (`onScroll` lines 95-104 with `loadMoreItems` lines 65-93): when
`offset < total` a page is requested at the current offset and, on response,
`total` is set to the server total and `setOffset(start + LIMIT)` advances
the offset by the page size. -/
def scrollTrigger (s : PagState) (serverTotal : Nat) : PagState :=
  if s.offset < s.total then
    { offset := s.offset + LIMIT, total := serverTotal,
      requests := s.requests ++ [s.offset] }
  else s

/-- The state reached from offset 0 with server total 45 after three
near-bottom scroll triggers. -/
def threeScrollRun : PagState :=
  scrollTrigger (scrollTrigger (scrollTrigger ⟨0, 45, []⟩ 45) 45) 45

theorem mem_handleToggleSelect (prev : List Int) (id x : Int) :
    x ∈ handleToggleSelect prev id ↔ (if id = x then x ∉ prev else x ∈ prev) := by
  unfold handleToggleSelect
  by_cases hmem : id ∈ prev <;> by_cases hx : id = x
  · subst hx
    simp [hmem]
  · have hx2 : x ≠ id := fun h => hx h.symm
    simp [hmem, hx, hx2]
  · subst hx
    simp [hmem]
  · have hx2 : x ≠ id := fun h => hx h.symm
    simp [hmem, hx, hx2]

theorem foldl_toggle_mem (seq : List Int) (s : List Int) (x : Int) :
    x ∈ List.foldl handleToggleSelect s seq ↔
      (x ∈ s ↔ ¬ Odd (seq.count x)) := by
  induction seq generalizing s with
  | nil => simp [Nat.odd_iff]
  | cons a seq ih =>
    rw [List.foldl_cons, ih, mem_handleToggleSelect]
    by_cases hax : a = x
    · subst hax
      rw [List.count_cons_self, Nat.odd_add_one]
      simp only [eq_self_iff_true, if_true]
      tauto
    · rw [List.count_cons_of_ne (fun h => hax h.symm)]
      simp only [if_neg hax]

/-- C4: for any finite sequence of toggle calls starting from the empty
selection, an id is in the resulting selection exactly when it was toggled
an odd number of times. -/
theorem toggle_sequence_parity (seq : List Int) (x : Int) :
    x ∈ List.foldl handleToggleSelect [] seq ↔ Odd (seq.count x) := by
  rw [foldl_toggle_mem]
  simp only [List.not_mem_nil, false_iff]
  tauto

/-- C10: starting from a duplicate-free selection, a toggle keeps it
duplicate-free; toggling an id that is present removes it entirely, toggling
an absent id appends it exactly once, and no id ever occurs twice. -/
theorem toggle_preserves_nodup (prev : List Int) (id : Int) (h : prev.Nodup) :
    (handleToggleSelect prev id).Nodup ∧
    (id ∈ prev → id ∉ handleToggleSelect prev id) ∧
    (id ∉ prev → handleToggleSelect prev id = prev ++ [id]) ∧
    (∀ x, (handleToggleSelect prev id).count x ≤ 1) := by
  refine ⟨?_, ?_, ?_, ?_⟩
  · unfold handleToggleSelect
    by_cases hmem : id ∈ prev
    · simpa [hmem] using h.filter (p := fun i => decide (i ≠ id))
    · simp [hmem, List.nodup_append, h]
  · intro hmem
    rw [mem_handleToggleSelect]
    simp [hmem]
  · intro hmem
    unfold handleToggleSelect
    simp [hmem]
  · intro x
    have hnd : (handleToggleSelect prev id).Nodup := by
      unfold handleToggleSelect
      by_cases hmem : id ∈ prev
      · simpa [hmem] using h.filter (p := fun i => decide (i ≠ id))
      · simp [hmem, List.nodup_append, h]
    exact List.nodup_iff_count_le_one.mp hnd x

theorem spliceInsert_perm (l : List Int) (idx : Nat) (x : Int) :
    (spliceInsert l idx x).Perm (x :: l) := by
  have hsplit : spliceInsert l idx x = List.take idx l ++ x :: List.drop idx l := by
    unfold spliceInsert
    simp
  rw [hsplit]
  have hmid := @List.perm_middle _ x (List.take idx l) (List.drop idx l)
  rwa [List.take_append_drop] at hmid

/-- C5: for valid indices, `reorder` permutes the ordering: the multiset of
ids is unchanged. -/
theorem reorder_perm (l : List Int) (fromIdx toIdx : Nat)
    (h1 : fromIdx < l.length) (h2 : toIdx < l.length) :
    (reorder l fromIdx toIdx).Perm l := by
  unfold reorder
  rw [List.get?_eq_get h1]
  refine (spliceInsert_perm _ _ _).trans ?_
  have hgd : l.get ⟨fromIdx, h1⟩ :: List.drop (fromIdx + 1) l = List.drop fromIdx l := by
    rw [List.get_eq_getElem]
    exact List.getElem_cons_drop l fromIdx h1
  rw [List.eraseIdx_eq_take_drop_succ]
  have hp := (@List.perm_middle _ (l.get ⟨fromIdx, h1⟩)
    (List.take fromIdx l) (List.drop (fromIdx + 1) l)).symm
  have heq : List.take fromIdx l ++ l.get ⟨fromIdx, h1⟩ :: List.drop (fromIdx + 1) l = l := by
    rw [hgd, List.take_append_drop]
  rwa [heq] at hp

/-- C5 witness: moving index 0 to index 2 in [1, 2, 3] is a permutation. -/
theorem reorder_perm_witness :
    (0 < ([1, 2, 3] : List Int).length ∧ 2 < ([1, 2, 3] : List Int).length) ∧
    (reorder [1, 2, 3] 0 2).Perm [1, 2, 3] :=
  ⟨⟨by decide, by decide⟩, reorder_perm [1, 2, 3] 0 2 (by decide) (by decide)⟩

/-- C8: a drag whose source or destination index is outside the bounds of
the active ordering leaves the ordering unchanged. -/
theorem onDragEnd_out_of_bounds (ids : List Int) (fromIdx toIdx : Nat)
    (h : ids.length ≤ fromIdx ∨ ids.length ≤ toIdx) :
    onDragEndIds ids fromIdx toIdx = ids := by
  unfold onDragEndIds
  rw [if_pos h]

/-- C8 witness: a drag from index 5 in the two-element ordering [1, 2]. -/
theorem onDragEnd_out_of_bounds_witness :
    ([1, 2] : List Int).length ≤ 5 ∧ onDragEndIds [1, 2] 5 0 = [1, 2] :=
  ⟨by decide, onDragEnd_out_of_bounds [1, 2] 5 0 (Or.inl (by decide))⟩

/-- C10 witness: toggling 2 in the duplicate-free selection [1, 2, 3]. -/
theorem toggle_preserves_nodup_witness :
    ([1, 2, 3] : List Int).Nodup ∧
    (handleToggleSelect [1, 2, 3] 2).Nodup ∧
    (2 ∈ ([1, 2, 3] : List Int) → 2 ∉ handleToggleSelect [1, 2, 3] 2) := by
  have h := toggle_preserves_nodup [1, 2, 3] 2 (by decide)
  exact ⟨by decide, h.1, h.2.1⟩

/-- C1: after queries A then B have been issued in that order, B carries the
latest generation and is applied, while A fails the generation check of
`loadItems`, yields the empty result, and applying that result to the scroll
state is a no-op — A cannot overwrite state with stale data. -/
theorem stale_response_discarded (g0 : Nat) (respA respB : FetchResult) (s : CompState) :
    applyResponse (issueRequest (issueRequest g0).2).2 (issueRequest (issueRequest g0).2).1 respB
      = respB ∧
    applyResponse (issueRequest (issueRequest g0).2).2 (issueRequest g0).1 respA
      = emptyResult ∧
    onScrollApply s
      (applyResponse (issueRequest (issueRequest g0).2).2 (issueRequest g0).1 respA).items
      = s := by
  have hB : applyResponse (issueRequest (issueRequest g0).2).2
      (issueRequest (issueRequest g0).2).1 respB = respB := by
    unfold applyResponse issueRequest
    simp
  have hA : applyResponse (issueRequest (issueRequest g0).2).2
      (issueRequest g0).1 respA = emptyResult := by
    unfold applyResponse issueRequest
    rw [if_neg (by omega)]
  refine ⟨hB, hA, ?_⟩
  rw [hA]
  unfold onScrollApply emptyResult
  simp

/-- C2 counterexample: from offset 0 with server total 45, three scroll
triggers issue requests at 0, 20 and 40 as claimed, but the offset then
stands at 60, so neither `offset == total` nor `offset <= total` holds. -/
theorem pagination_overshoot_counterexample :
    threeScrollRun.requests = [0, 20, 40] ∧
    threeScrollRun.offset = 60 ∧
    threeScrollRun.total = 45 ∧
    ¬(threeScrollRun.offset = threeScrollRun.total) ∧
    ¬(threeScrollRun.offset ≤ threeScrollRun.total) := by
  decide

/-- C2 amended: the three triggers issue requests at offsets 0, 20 and 40
and a fourth trigger is suppressed, but because `loadMoreItems` advances the
offset by the fixed page size, suppression happens through
`offset ≥ total` (offset = 60 > 45 = total), and the invariant is only
`offset ≤ total + LIMIT` for any state satisfying `offset ≤ total`. -/
theorem pagination_overshoot_amended :
    threeScrollRun.requests = [0, 20, 40] ∧
    threeScrollRun.total ≤ threeScrollRun.offset ∧
    scrollTrigger threeScrollRun 45 = threeScrollRun ∧
    (∀ (s : PagState) (t : Nat), s.offset ≤ s.total →
      (scrollTrigger s t).offset ≤ s.total + LIMIT) := by
  refine ⟨by decide, by decide, by decide, ?_⟩
  intro s t h
  unfold scrollTrigger
  split
  · simp only []
    omega
  · omega

/-- C2 amended witness: the invariant conjunct applied at offset 0,
total 45. -/
theorem pagination_overshoot_amended_witness :
    (⟨0, 45, []⟩ : PagState).offset ≤ (⟨0, 45, []⟩ : PagState).total ∧
    (scrollTrigger ⟨0, 45, []⟩ 45).offset ≤ 45 + LIMIT :=
  ⟨by decide, pagination_overshoot_amended.2.2.2 ⟨0, 45, []⟩ 45 (by decide)⟩

/-- C3: when the startup `GET /get-state` fails or returns no record, the
rehydrated state is exactly the empty defaults — empty selection, empty
ordering, offset 0, empty search, scroll 0 — and the startup effect then
issues the first unfiltered page query instead of failing. -/
theorem state_fetch_failure_defaults :
    fetchUserState none = defaultUserState ∧
    (fetchUserState none).selectedIds = [] ∧
    (fetchUserState none).sortedIds = [] ∧
    (fetchUserState none).offset = 0 ∧
    (fetchUserState none).lastSearch = "" ∧
    (fetchUserState none).scrollTop = 0 ∧
    initQueryFor (fetchUserState none) = InitQuery.pageQuery 0 "" LIMIT := by
  refine ⟨rfl, rfl, rfl, rfl, rfl, rfl, ?_⟩
  unfold initQueryFor fetchUserState defaultUserState
  simp

/-- C6: the page-append merge keeps the existing ordering as an unchanged
prefix, appends only fetched items whose id is not already present while
preserving fetch order, and appending only already-present ids leaves the
ordering completely unchanged. -/
theorem mergeAppend_spec (prev newItems : List Item) :
    (mergeAppendItems prev newItems).take prev.length = prev ∧
    ((mergeAppendItems prev newItems).drop prev.length).Sublist newItems ∧
    (∀ it, it ∈ mergeAppendItems prev newItems ↔
      it ∈ prev ∨ (it ∈ newItems ∧ it.id ∉ prev.map Item.id)) ∧
    ((∀ it ∈ newItems, it.id ∈ prev.map Item.id) →
      mergeAppendItems prev newItems = prev) := by
  refine ⟨?_, ?_, ?_, ?_⟩
  · unfold mergeAppendItems
    exact List.take_left _ _
  · unfold mergeAppendItems
    rw [List.drop_left]
    exact List.filter_sublist _
  · intro it
    unfold mergeAppendItems
    simp [List.mem_filter]
  · intro h
    unfold mergeAppendItems
    have hnil : newItems.filter (fun item => item.id ∉ prev.map Item.id) = [] := by
      rw [List.filter_eq_nil_iff]
      intro a ha
      simp [h a ha]
    rw [hnil, List.append_nil]

/-- C6 witness: appending an item whose id is already present leaves the
ordering unchanged. -/
theorem mergeAppend_spec_witness :
    (∀ it ∈ [Item.mk 1 "1"], it.id ∈ ([Item.mk 1 "1", Item.mk 2 "2"].map Item.id)) ∧
    mergeAppendItems [Item.mk 1 "1", Item.mk 2 "2"] [Item.mk 1 "1"]
      = [Item.mk 1 "1", Item.mk 2 "2"] :=
  ⟨by decide, (mergeAppend_spec [Item.mk 1 "1", Item.mk 2 "2"] [Item.mk 1 "1"]).2.2.2 (by decide)⟩

/-- C7: when the applied search term changes from the empty string to "5",
the offset resets to 0, the ordering is replaced (not merged) by the ids of
the filtered result, and the scroll position resets to 0. -/
theorem search_change_resets (s : CompState) (fetched : List Item)
    (h : s.lastSearch = "") :
    (searchEffect s "5" fetched).offset = 0 ∧
    (searchEffect s "5" fetched).sortedIds = fetched.map Item.id ∧
    (searchEffect s "5" fetched).items = fetched ∧
    (searchEffect s "5" fetched).scrollTop = 0 ∧
    (searchEffect s "5" fetched).lastSearch = "5" := by
  unfold searchEffect
  rw [h, if_neg (by decide)]
  exact ⟨rfl, rfl, rfl, rfl, rfl⟩

/-- C7 witness: the search transition applied to a concrete idle state. -/
theorem search_change_resets_witness :
    (CompState.mk [] [] [3] 40 "" 7).lastSearch = "" ∧
    (searchEffect (CompState.mk [] [] [3] 40 "" 7) "5" [Item.mk 5 "5"]).offset = 0 ∧
    (searchEffect (CompState.mk [] [] [3] 40 "" 7) "5" [Item.mk 5 "5"]).sortedIds = [5] ∧
    (searchEffect (CompState.mk [] [] [3] 40 "" 7) "5" [Item.mk 5 "5"]).scrollTop = 0 := by
  have h := search_change_resets (CompState.mk [] [] [3] 40 "" 7) [Item.mk 5 "5"] rfl
  exact ⟨rfl, h.1, h.2.1, h.2.2.2.1⟩

/-- C9: neither a search-driven replacement nor a page-append driven by a
fetch result changes the selection — in every modelled transition the
selection field is untouched; only an explicit toggle modifies it. -/
theorem selection_never_implicitly_changed (s : CompState) (q : String)
    (fetched : List Item) (s2 : V2State) (newItems : List Item) :
    (searchEffect s q fetched).selectedIds = s.selectedIds ∧
    (onScrollApply s newItems).selectedIds = s.selectedIds ∧
    (loadMore s2 newItems).selectedIds = s2.selectedIds := by
  refine ⟨?_, ?_, ?_⟩
  · unfold searchEffect
    split <;> rfl
  · unfold onScrollApply
    split <;> rfl
  · unfold loadMore
    split <;> rfl
